import Mathlib

/-!
Shallow embedding of the MarketMind request orchestrator
(`services/geminiService`: `getLivePrice`, `analyzeStock`, `getForecast`,
`getTopPicks`).  Every call to the external generation service is modelled
by an explicit input describing the observable outcome of that call: the
call either threw, produced no text, produced text that fails JSON parsing,
or produced text that parses to a value of the declared response shape.
The TypeScript code performs no runtime validation on parsed values
(`JSON.parse(response.text)` is cast, not checked), so the parsed payload
carries arbitrary field values of the structural shape.
-/

namespace MarketMind

/-- Sentiment values of `AnalysisResult.sentiment`
(`'bullish' | 'bearish' | 'neutral'` in `types.ts`). -/
inductive Sentiment where
  | bullish
  | bearish
  | neutral
deriving DecidableEq, Repr

/-- The quote shape `getLivePrice` resolves to:
`{ price: number, currency: string, exchange: string }`.
JSON numbers are modelled as integers; none of the orchestrator code
performs arithmetic on them. -/
structure PriceQuote where
  price : Int
  currency : String
  exchange : String
deriving DecidableEq, Repr

/-- `GroundingChunk.web` payload from `types.ts`: `{ uri, title }`. -/
structure WebSource where
  uri : String
  title : String
deriving DecidableEq, Repr

/-- `GroundingChunk` from `types.ts`: `{ web?: { uri, title } }`. -/
structure GroundingChunk where
  web : Option WebSource
deriving DecidableEq, Repr

/-- `AnalysisResult` from `types.ts`: `{ markdown, groundingChunks?, sentiment }`.
`groundingChunks` is an optional field, hence `Option`. -/
structure AnalysisResult where
  markdown : String
  groundingChunks : Option (List GroundingChunk)
  sentiment : Sentiment
deriving DecidableEq, Repr

/-- `AnalysisMode` enum from `types.ts`. -/
inductive AnalysisMode where
  | QUICK
  | DEEP
deriving DecidableEq, Repr

/-- `Scenario` from `types.ts`.  At runtime the `type` field is whatever
string the service returned (the response schema only documents
"One of: Bearish, Base, Bullish", it does not constrain it), so it is a
plain `String` here. -/
structure Scenario where
  type : String
  priceTarget : Int
  probability : Int
  reasoning : String
deriving DecidableEq, Repr

/-- `Forecast` from `types.ts`. -/
structure Forecast where
  symbol : String
  timeframe : String
  currentPrice : Int
  scenarios : List Scenario
  confidenceScore : Int
deriving DecidableEq, Repr

/-- `Recommendation` from `types.ts`.  `action` and `riskLevel` are unchecked
strings at runtime (enum constraints live only in the outbound schema). -/
structure Recommendation where
  symbol : String
  name : String
  price : String
  currency : String
  action : String
  reasoning : String
  riskLevel : String
  potentialUpside : String
  sources : List String
deriving DecidableEq, Repr

/-- Observable outcome of one non-streaming `generateContent` call whose
text is fed to `JSON.parse` and cast to `α`:
`throws` = the await raised; `noText` = `response.text` was empty or
undefined (the `if (response.text)` guard fails); `parseError` =
`JSON.parse` threw (caught by the surrounding `try`); `parsed v` =
`JSON.parse` produced `v`. -/
inductive ServiceResult (α : Type) where
  | throws
  | noText
  | parseError
  | parsed (value : α)
deriving DecidableEq, Repr

/-- Observable outcome of the plain-text context call inside `getForecast`
(step 1): it either throws or yields `contextResp.text`, an optional
string. -/
inductive ContextResult where
  | throws
  | ok (text : Option String)
deriving DecidableEq, Repr

/-- The `market` parameter of `getTopPicks`: `'US' | 'IN'`. -/
inductive Market where
  | US
  | IN
deriving DecidableEq, Repr

/-- One chunk received from `generateContentStream`: `chunk.text` is
optional (`chunk.text || ""` in the loop), and the chunk may carry
grounding metadata (`chunk.candidates?.[0]?.groundingMetadata?.groundingChunks`). -/
structure StreamChunk where
  text : Option String
  groundingChunks : Option (List GroundingChunk)
deriving DecidableEq, Repr

/-- Observable outcome of the streaming call in `analyzeStock`: the await
threw, or it delivered a finite sequence of chunks. -/
inductive StreamOutcome where
  | throws
  | chunks (chunks : List StreamChunk)
deriving DecidableEq, Repr

/-- JavaScript `haystack.includes(needle)`: contiguous substring test,
on the character lists of the two strings. -/
def strContains (s pattern : String) : Bool :=
  decide (pattern.data <:+: s.data)

/-- JavaScript `s.toLowerCase()`, as the per-character case mapping over the
character list.  `Char.toLower` lowercases the basic latin letters, which
covers every keyword and every input considered in this development. -/
def toLowerCase (s : String) : String :=
  ⟨s.data.map Char.toLower⟩

/-- `getLivePrice` (service module, lines 97-133): inside a `try`, one
non-streaming call with a JSON response schema; `if (response.text)` then
`return JSON.parse(response.text)` — the parsed object is returned verbatim,
with no validation of any field — otherwise `return null`; the `catch`
returns `null`.  The `symbol` argument only shapes the prompt string and
cannot influence which branch is taken. -/
def getLivePrice (symbol : String) (response : ServiceResult PriceQuote) :
    Option PriceQuote :=
  match response with
  | .throws => none
  | .noText => none
  | .parseError => none
  | .parsed q => some q

/-- The sentiment block of `analyzeStock` (lines 234-238):
`lowerText = fullText.toLowerCase()`; bullish when `lowerText` includes
`invest`, `buy` or `bullish`; otherwise bearish when it includes `pass`,
`sell` or `bearish`; otherwise neutral. -/
def classifySentiment (fullText : String) : Sentiment :=
  let lowerText := toLowerCase fullText
  if strContains lowerText "invest" || strContains lowerText "buy" ||
      strContains lowerText "bullish" then
    .bullish
  else if strContains lowerText "pass" || strContains lowerText "sell" ||
      strContains lowerText "bearish" then
    .bearish
  else
    .neutral

/-- The `for await (const chunk of result)` loop of `analyzeStock`
(lines 224-232), with the `onStream` callback made observable: given the
buffer so far, returns the final buffer, the list of arguments passed to
`onStream` (one per chunk, in order), and `finalResponse` (the last chunk,
if any). -/
def streamLoop : String → List StreamChunk → String × List String × Option StreamChunk
  | fullText, [] => (fullText, [], none)
  | fullText, chunk :: rest =>
    let newText := fullText ++ chunk.text.getD ""
    let r := streamLoop newText rest
    (r.1, newText :: r.2.1, some (r.2.2.getD chunk))

/-- `analyzeStock` (lines 135-253), with the streaming call's outcome as an
explicit input and the `onStream` call arguments returned alongside the
result.  On a thrown transport error the `catch` returns the fixed failure
message with neutral sentiment and no `groundingChunks` field; otherwise
the stream is folded, sentiment is classified over the full text, and the
grounding chunks of the last received chunk (or `[]`) are attached. -/
def analyzeStock (symbol : String) (mode : AnalysisMode) (stream : StreamOutcome) :
    AnalysisResult × List String :=
  match stream with
  | .throws =>
    (⟨"Failed to generate analysis. Please try again.", none, .neutral⟩, [])
  | .chunks cs =>
    let r := streamLoop "" cs
    (⟨r.1, some ((r.2.2.bind (·.groundingChunks)).getD []),
      classifySentiment r.1⟩, r.2.1)

/-- `getForecast` (lines 255-321): inside one `try`, a first plain-text
context call (its text only shapes the second prompt), then a second call
with a JSON response schema; `if (response.text)` then
`return JSON.parse(response.text) as Forecast` — returned verbatim, with no
validation of scenario count or kinds — otherwise `null`; the `catch`
returns `null`. -/
def getForecast (symbol : String) (contextResp : ContextResult)
    (response : ServiceResult Forecast) : Option Forecast :=
  match contextResp with
  | .throws => none
  | .ok _context =>
    match response with
    | .throws => none
    | .noText => none
    | .parseError => none
    | .parsed f => some f

/-- The timeframe-to-strategy branch of `getTopPicks` (lines 327-350):
substring matching over `timeframe.toLowerCase()`. -/
def strategyFor (timeframe : String) : String :=
  let tf := toLowerCase timeframe
  if strContains tf "day" || strContains tf "intraday" then
    "INTRA-DAY MOMENTUM. Focus on high relative volume, pre-market movers, earnings beats, and immediate volatility."
  else if strContains tf "week" then
    "SWING TRADING. Focus on technical breakouts, sector rotation, and short-term news catalysts."
  else if strContains tf "month" then
    if strContains tf "1" || strContains tf "2" || strContains tf "3" then
      "SHORT-TO-MEDIUM TERM TREND. Focus on earnings growth, relative strength (RSI), and moving average crossovers."
    else if strContains tf "4" || strContains tf "5" || strContains tf "6" then
      "POSITION TRADING. Focus on macro trends, fundamental growth, and sustained sector leadership."
    else
      "TREND FOLLOWING. Focus on fundamental catalysts and technical trends."
  else if strContains tf "year" then
    "LONG TERM VALUE & COMPOUNDING. Focus on undervalued companies with wide moats, high ROIC, and durable competitive advantages (Buffett Style)."
  else
    "BALANCED GROWTH & VALUE. Focus on companies with strong fundamentals and technical uptrends."

/-- `getTopPicks` (lines 323-404): the strategy string is computed from the
timeframe alone, then one non-streaming call; on text, the parsed array is
returned with the strategy; on no text or a thrown error, an empty list
with the same strategy.  The `market` argument only shapes the prompt. -/
def getTopPicks (market : Market) (timeframe : String)
    (response : ServiceResult (List Recommendation)) :
    List Recommendation × String :=
  let strategy := strategyFor timeframe
  match response with
  | .throws => ([], strategy)
  | .noText => ([], strategy)
  | .parseError => ([], strategy)
  | .parsed recs => (recs, strategy)

/-- Concatenation of the chunk texts (`chunk.text || ""`), in order. -/
def catTexts : List (Option String) → String
  | [] => ""
  | t :: ts => t.getD "" ++ catTexts ts

/-- The successive buffer prefixes seen by `onStream`: starting from `acc`,
the running concatenation after each chunk text. -/
def prefixConcats (acc : String) : List (Option String) → List String
  | [] => []
  | t :: ts => (acc ++ t.getD "") :: prefixConcats (acc ++ t.getD "") ts

theorem streamLoop_eq (acc : String) (cs : List StreamChunk) :
    (streamLoop acc cs).1 = acc ++ catTexts (cs.map (·.text)) ∧
    (streamLoop acc cs).2.1 = prefixConcats acc (cs.map (·.text)) := by
  induction cs generalizing acc with
  | nil => simp [streamLoop, catTexts, prefixConcats]
  | cons c rest ih =>
    have h := ih (acc ++ c.text.getD "")
    simp [streamLoop, catTexts, prefixConcats, h.1, h.2, String.append_assoc]

theorem getTopPicks_snd (market : Market) (timeframe : String)
    (response : ServiceResult (List Recommendation)) :
    (getTopPicks market timeframe response).2 = strategyFor timeframe := by
  cases response <;> rfl

theorem analyzeStock_sentiment_eq (symbol : String) (mode : AnalysisMode)
    (stream : StreamOutcome) :
    (analyzeStock symbol mode stream).1.sentiment =
      classifySentiment (analyzeStock symbol mode stream).1.markdown := by
  cases stream with
  | throws =>
    show Sentiment.neutral =
      classifySentiment "Failed to generate analysis. Please try again."
    decide
  | chunks cs => rfl

theorem strContains_intraday_false (s : String)
    (h : strContains s "day" = false) : strContains s "intraday" = false := by
  cases hc : strContains s "intraday" with
  | false => rfl
  | true =>
    exfalso
    unfold strContains at hc h
    have h1 : ("intraday".data <:+: s.data) := of_decide_eq_true hc
    have h2 : ("day".data <:+: "intraday".data) := by decide
    have h3 := decide_eq_true (h2.trans h1)
    rw [h] at h3
    exact Bool.false_ne_true h3

/-- Claim C1 (amended): for every non-empty symbol, `getLivePrice` either
returns the absent sentinel or returns the quote parsed from the service
response verbatim, with no validation of any field; consequently the
returned quote has strictly positive price and a 3-letter currency code
exactly when the service's parsed quote does. -/
theorem getLivePrice_absent_or_verbatim (symbol : String) (hsym : symbol ≠ "")
    (response : ServiceResult PriceQuote) :
    (getLivePrice symbol response = none ∨
      ∃ q, response = ServiceResult.parsed q ∧
        getLivePrice symbol response = some q) ∧
    (∀ q, response = ServiceResult.parsed q → 0 < q.price →
      q.currency.length = 3 →
      ∃ q2, getLivePrice symbol response = some q2 ∧ 0 < q2.price ∧
        q2.currency.length = 3) := by
  constructor
  · cases response with
    | throws => exact Or.inl rfl
    | noText => exact Or.inl rfl
    | parseError => exact Or.inl rfl
    | parsed q => exact Or.inr ⟨q, rfl, rfl⟩
  · intro q hq hpos hlen
    subst hq
    exact ⟨q, rfl, hpos, hlen⟩

/-- Claim C1, witness: the amended theorem applied at symbol `AAPL` and a
service response parsing to a concrete quote. -/
theorem getLivePrice_absent_or_verbatim_witness :
    (getLivePrice "AAPL" (ServiceResult.parsed ⟨190, "USD", "NASDAQ"⟩) = none ∨
      ∃ q, ServiceResult.parsed (⟨190, "USD", "NASDAQ"⟩ : PriceQuote) =
          ServiceResult.parsed q ∧
        getLivePrice "AAPL" (ServiceResult.parsed ⟨190, "USD", "NASDAQ"⟩) =
          some q) ∧
    (∀ q, ServiceResult.parsed (⟨190, "USD", "NASDAQ"⟩ : PriceQuote) =
        ServiceResult.parsed q → 0 < q.price → q.currency.length = 3 →
      ∃ q2, getLivePrice "AAPL" (ServiceResult.parsed ⟨190, "USD", "NASDAQ"⟩) =
          some q2 ∧ 0 < q2.price ∧ q2.currency.length = 3) :=
  getLivePrice_absent_or_verbatim "AAPL" (by decide)
    (ServiceResult.parsed ⟨190, "USD", "NASDAQ"⟩)

/-- Claim C1, counterexample to the claim as stated: for the non-empty
symbol `AAPL` and a service response that parses to a quote with price `-5`
and the 4-letter currency string `USDX`, `getLivePrice` returns that quote
unvalidated, so it does return a quote with a non-positive price. -/
theorem getLivePrice_nonpositive_price_cex :
    ("AAPL" : String) ≠ "" ∧
    getLivePrice "AAPL" (ServiceResult.parsed ⟨-5, "USDX", "NYSE"⟩) =
      some ⟨-5, "USDX", "NYSE"⟩ ∧
    ¬(0 < (⟨-5, "USDX", "NYSE"⟩ : PriceQuote).price) ∧
    (⟨-5, "USDX", "NYSE"⟩ : PriceQuote).currency.length ≠ 3 := by
  decide

/-- Claim C2 (amended): for every symbol, `getForecast` either returns the
absent sentinel or returns the forecast parsed from the second service
response verbatim, with no validation of the scenario count or the scenario
kinds; the exactly-3-scenarios / kind-set property holds of the result
exactly when it holds of the service's parsed forecast. -/
theorem getForecast_absent_or_verbatim (symbol : String)
    (contextResp : ContextResult) (response : ServiceResult Forecast) :
    getForecast symbol contextResp response = none ∨
      ∃ f, response = ServiceResult.parsed f ∧
        getForecast symbol contextResp response = some f := by
  cases contextResp with
  | throws => exact Or.inl rfl
  | ok t =>
    cases response with
    | throws => exact Or.inl rfl
    | noText => exact Or.inl rfl
    | parseError => exact Or.inl rfl
    | parsed f => exact Or.inr ⟨f, rfl, rfl⟩

/-- Claim C2, counterexample to the claim as stated: a service response that
parses to a forecast with an empty scenarios list is returned verbatim, so
`getForecast` returns a non-absent forecast whose scenarios list does not
have 3 entries of kinds {Bearish, Base, Bullish}. -/
theorem getForecast_scenarios_cex :
    getForecast "AAPL" (ContextResult.ok (some "AAPL trades at 190 USD"))
        (ServiceResult.parsed ⟨"AAPL", "3 months", 190, [], 55⟩) =
      some ⟨"AAPL", "3 months", 190, [], 55⟩ ∧
    (⟨"AAPL", "3 months", 190, [], 55⟩ : Forecast).scenarios.length ≠ 3 := by
  decide

/-- Claim C5: for every symbol and mode, when the streaming call throws a
transport error, `analyzeStock` returns (rather than propagates) a terminal
result carrying the fixed failure message and neutral sentiment, and the
`onStream` callback is never invoked. -/
theorem analyzeStock_transport_error (symbol : String) (mode : AnalysisMode) :
    analyzeStock symbol mode StreamOutcome.throws =
      (⟨"Failed to generate analysis. Please try again.", none,
        Sentiment.neutral⟩, []) :=
  rfl

/-- Claim C6: for every symbol, a thrown transport error, an empty response
text and an unparseable response text each make `getLivePrice` return the
absent sentinel (the function is total, so no exception escapes); in
particular `getLivePrice "ZZZZ"` against a throwing service returns the
absent sentinel. -/
theorem getLivePrice_failure_absent (symbol : String) :
    getLivePrice symbol ServiceResult.throws = none ∧
    getLivePrice symbol ServiceResult.noText = none ∧
    getLivePrice symbol ServiceResult.parseError = none ∧
    getLivePrice "ZZZZ" ServiceResult.throws = none :=
  ⟨rfl, rfl, rfl, rfl⟩

/-- Claim C3 (amended): for every mode and stream outcome, the sentiment
returned by `analyzeStock` is one of exactly {bullish, bearish, neutral}
and equals the fixed-rule classification of the returned text; that
classification is bullish exactly when the lowercased text contains
`invest`, `buy` or `bullish`, otherwise bearish exactly when it contains
`pass`, `sell` or `bearish` (the code's bearish keyword set includes
`pass`, which the claim as stated omits), and neutral otherwise. -/
theorem analyzeStock_sentiment_rule (symbol : String) (mode : AnalysisMode)
    (stream : StreamOutcome) :
    ((analyzeStock symbol mode stream).1.sentiment = Sentiment.bullish ∨
      (analyzeStock symbol mode stream).1.sentiment = Sentiment.bearish ∨
      (analyzeStock symbol mode stream).1.sentiment = Sentiment.neutral) ∧
    (analyzeStock symbol mode stream).1.sentiment =
      classifySentiment (analyzeStock symbol mode stream).1.markdown ∧
    (∀ t : String,
      (classifySentiment t = Sentiment.bullish ↔
        (strContains (toLowerCase t) "invest" ||
          strContains (toLowerCase t) "buy" ||
          strContains (toLowerCase t) "bullish") = true) ∧
      (classifySentiment t = Sentiment.bearish ↔
        ((strContains (toLowerCase t) "invest" ||
          strContains (toLowerCase t) "buy" ||
          strContains (toLowerCase t) "bullish") = false ∧
         (strContains (toLowerCase t) "pass" ||
          strContains (toLowerCase t) "sell" ||
          strContains (toLowerCase t) "bearish") = true)) ∧
      (classifySentiment t = Sentiment.neutral ↔
        ((strContains (toLowerCase t) "invest" ||
          strContains (toLowerCase t) "buy" ||
          strContains (toLowerCase t) "bullish") = false ∧
         (strContains (toLowerCase t) "pass" ||
          strContains (toLowerCase t) "sell" ||
          strContains (toLowerCase t) "bearish") = false))) := by
  refine ⟨?_, analyzeStock_sentiment_eq symbol mode stream, ?_⟩
  · cases h : (analyzeStock symbol mode stream).1.sentiment with
    | bullish => exact Or.inl rfl
    | bearish => exact Or.inr (Or.inl rfl)
    | neutral => exact Or.inr (Or.inr rfl)
  · intro t
    unfold classifySentiment
    cases hb : (strContains (toLowerCase t) "invest" ||
        strContains (toLowerCase t) "buy" ||
        strContains (toLowerCase t) "bullish") <;>
      cases hr : (strContains (toLowerCase t) "pass" ||
          strContains (toLowerCase t) "sell" ||
          strContains (toLowerCase t) "bearish") <;>
      simp [hb, hr]

/-- Claim C3, counterexample to the claim as stated: the streamed text
`I would pass on this one.` contains none of the keywords the claim names
(in particular neither `sell` nor `bearish`, so the claim predicts a
neutral sentiment), yet `analyzeStock` classifies it bearish because the
code's bearish keyword set also contains `pass`. -/
theorem analyzeStock_pass_sentiment_cex :
    (analyzeStock "TSLA" AnalysisMode.QUICK
        (StreamOutcome.chunks [⟨some "I would pass on this one.", none⟩])).1.sentiment =
      Sentiment.bearish ∧
    strContains "i would pass on this one." "sell" = false ∧
    strContains "i would pass on this one." "bearish" = false ∧
    strContains "i would pass on this one." "invest" = false ∧
    strContains "i would pass on this one." "buy" = false ∧
    strContains "i would pass on this one." "bullish" = false := by
  decide

/-- Claim C4: for every stream of chunks, `analyzeStock` appends each
chunk's text to an accumulating buffer, invokes the `onStream` callback
with the buffer so far after each chunk (the calls, in order, are the
successive prefixes), and the returned text is the concatenation of all
chunk texts; in particular for the chunks `NVDA looks ` and
`like a strong buy.` the final text is `NVDA looks like a strong buy.`
with a bullish sentiment. -/
theorem analyzeStock_stream_accumulation (symbol : String)
    (mode : AnalysisMode) (cs : List StreamChunk) :
    (analyzeStock symbol mode (StreamOutcome.chunks cs)).1.markdown =
      catTexts (cs.map (·.text)) ∧
    (analyzeStock symbol mode (StreamOutcome.chunks cs)).2 =
      prefixConcats "" (cs.map (·.text)) ∧
    (analyzeStock "NVDA" AnalysisMode.QUICK (StreamOutcome.chunks
        [⟨some "NVDA looks ", none⟩,
         ⟨some "like a strong buy.", none⟩])).1.markdown =
      "NVDA looks like a strong buy." ∧
    (analyzeStock "NVDA" AnalysisMode.QUICK (StreamOutcome.chunks
        [⟨some "NVDA looks ", none⟩,
         ⟨some "like a strong buy.", none⟩])).1.sentiment =
      Sentiment.bullish := by
  refine ⟨?_, ?_, by decide, by decide⟩
  · have h := streamLoop_eq "" cs
    simpa [analyzeStock] using h.1
  · have h := streamLoop_eq "" cs
    simpa [analyzeStock] using h.2

/-- Claim C7: the strategy label returned by `getTopPicks` is a
deterministic pure function of the timeframe string alone — any two calls
with the same timeframe yield the same label, whatever the market and the
service response — and for the timeframe `Intraday` with market `US` the
intraday-momentum label is selected. -/
theorem getTopPicks_strategy_deterministic (market market2 : Market)
    (timeframe : String) (response response2 : ServiceResult (List Recommendation)) :
    (getTopPicks market timeframe response).2 =
      (getTopPicks market2 timeframe response2).2 ∧
    (getTopPicks Market.US "Intraday" response).2 =
      "INTRA-DAY MOMENTUM. Focus on high relative volume, pre-market movers, earnings beats, and immediate volatility." := by
  constructor
  · rw [getTopPicks_snd, getTopPicks_snd]
  · rw [getTopPicks_snd]
    decide

/-- Claim C8: for every timeframe whose lowercasing contains none of the
keywords `day`, `intraday`, `week`, `month`, `year`, `getTopPicks` selects
the default balanced growth and value strategy label. -/
theorem getTopPicks_default_strategy (market : Market) (timeframe : String)
    (response : ServiceResult (List Recommendation))
    (hday : strContains (toLowerCase timeframe) "day" = false)
    (hintraday : strContains (toLowerCase timeframe) "intraday" = false)
    (hweek : strContains (toLowerCase timeframe) "week" = false)
    (hmonth : strContains (toLowerCase timeframe) "month" = false)
    (hyear : strContains (toLowerCase timeframe) "year" = false) :
    (getTopPicks market timeframe response).2 =
      "BALANCED GROWTH & VALUE. Focus on companies with strong fundamentals and technical uptrends." := by
  rw [getTopPicks_snd]
  unfold strategyFor
  simp [hday, hintraday, hweek, hmonth, hyear]

/-- Claim C8, witness: the timeframe `soon` matches no keyword set, so the
default label is selected. -/
theorem getTopPicks_default_strategy_witness :
    (getTopPicks Market.US "soon" ServiceResult.throws).2 =
      "BALANCED GROWTH & VALUE. Focus on companies with strong fundamentals and technical uptrends." :=
  getTopPicks_default_strategy Market.US "soon" ServiceResult.throws
    (by decide) (by decide) (by decide) (by decide) (by decide)

/-- Claim C9: the bullish keyword check of `analyzeStock` takes precedence —
whenever the returned text contains a bullish keyword (`invest`, `buy` or
`bullish`, case-insensitive) and also a bearish keyword (`pass`, `sell` or
`bearish`), the returned sentiment is bullish. -/
theorem analyzeStock_bullish_precedence (symbol : String) (mode : AnalysisMode)
    (stream : StreamOutcome)
    (hbull : (strContains
        (toLowerCase (analyzeStock symbol mode stream).1.markdown) "invest" ||
      strContains
        (toLowerCase (analyzeStock symbol mode stream).1.markdown) "buy" ||
      strContains
        (toLowerCase (analyzeStock symbol mode stream).1.markdown) "bullish") = true)
    (hbear : (strContains
        (toLowerCase (analyzeStock symbol mode stream).1.markdown) "pass" ||
      strContains
        (toLowerCase (analyzeStock symbol mode stream).1.markdown) "sell" ||
      strContains
        (toLowerCase (analyzeStock symbol mode stream).1.markdown) "bearish") = true) :
    (analyzeStock symbol mode stream).1.sentiment = Sentiment.bullish := by
  rw [analyzeStock_sentiment_eq]
  unfold classifySentiment
  simp [hbull]

/-- Claim C9, witness: a streamed text containing both `buy` and `sell` is
classified bullish. -/
theorem analyzeStock_bullish_precedence_witness :
    (analyzeStock "NVDA" AnalysisMode.QUICK
        (StreamOutcome.chunks
          [⟨some "Verdict: buy now, do not sell.", none⟩])).1.sentiment =
      Sentiment.bullish :=
  analyzeStock_bullish_precedence "NVDA" AnalysisMode.QUICK
    (StreamOutcome.chunks [⟨some "Verdict: buy now, do not sell.", none⟩])
    (by decide) (by decide)

/-- Claim C10: the month sub-range selection of `getTopPicks` only tests for
the presence of single digit characters, so every timeframe whose
lowercasing contains `month` but neither `day` nor `week` and contains the
character `1` selects the short-to-medium-term trend label, even when the
month count is outside 1-3. -/
theorem getTopPicks_month_digit_strategy (market : Market) (timeframe : String)
    (response : ServiceResult (List Recommendation))
    (hmonth : strContains (toLowerCase timeframe) "month" = true)
    (hday : strContains (toLowerCase timeframe) "day" = false)
    (hweek : strContains (toLowerCase timeframe) "week" = false)
    (h1 : strContains (toLowerCase timeframe) "1" = true) :
    (getTopPicks market timeframe response).2 =
      "SHORT-TO-MEDIUM TERM TREND. Focus on earnings growth, relative strength (RSI), and moving average crossovers." := by
  have hintra := strContains_intraday_false (toLowerCase timeframe) hday
  rw [getTopPicks_snd]
  unfold strategyFor
  simp [hmonth, hday, hweek, h1, hintra]

/-- Claim C10, witness: the timeframe `12 months` (a month count outside
1-3) contains the character `1`, so the short-to-medium-term trend label is
selected. -/
theorem getTopPicks_month_digit_strategy_witness :
    (getTopPicks Market.US "12 months" ServiceResult.throws).2 =
      "SHORT-TO-MEDIUM TERM TREND. Focus on earnings growth, relative strength (RSI), and moving average crossovers." :=
  getTopPicks_month_digit_strategy Market.US "12 months" ServiceResult.throws
    (by decide) (by decide) (by decide) (by decide)

end MarketMind
